import Mathlib

/-!
A shallow embedding of the core of `react-native-qa-logger`:
the bounded event store (`QALogger` in `src/DebugButton.tsx`), the
redaction/truncation policies and transport interceptors
(`src/network.ts`), and the global error hook (`errorHandler` module).
JavaScript nondeterminism (`Date.now()`, `Math.random()`) is passed in
as explicit arguments; mutable module state is explicit state records.
-/

set_option maxHeartbeats 1000000

namespace QA

/-! ## JSON-like body values (`body: any` in the source) -/

/-- A JSON-like value, standing for the arbitrary `any`-typed bodies the
source serializes with `JSON.stringify`. -/
inductive Json where
  | jnull
  | jbool (b : Bool)
  | jnum (n : Int)
  | jstr (s : String)
  | jarr (elems : List Json)
  | jobj (fields : List (String × Json))

mutual

/-- `JSON.stringify` on the JSON-like fragment (no escaping inside
string literals, which the claims do not depend on). -/
def Json.stringify : Json → String
  | .jnull => "null"
  | .jbool b => if b then "true" else "false"
  | .jnum n => toString n
  | .jstr s => "\"" ++ s ++ "\""
  | .jarr es => "[" ++ Json.stringifyList es ++ "]"
  | .jobj fs => "\x7b" ++ Json.stringifyFields fs ++ "\x7d"

/-- Comma-separated serialization of array elements. -/
def Json.stringifyList : List Json → String
  | [] => ""
  | [j] => Json.stringify j
  | j :: rest => Json.stringify j ++ "," ++ Json.stringifyList rest

/-- Comma-separated serialization of object fields. -/
def Json.stringifyFields : List (String × Json) → String
  | [] => ""
  | [(k, v)] => "\"" ++ k ++ "\":" ++ Json.stringify v
  | (k, v) :: rest => "\"" ++ k ++ "\":" ++ Json.stringify v ++ "," ++ Json.stringifyFields rest

end

/-- A request/response body: either already a string, or a structured
JSON-like value. -/
inductive Body where
  | bstr (s : String)
  | bjson (j : Json)

/-- JavaScript truthiness test `!body` on a body value: the falsy bodies
are the empty string, `null`, `false` and `0`. -/
def Body.isFalsy : Body → Bool
  | .bstr s => s = ""
  | .bjson .jnull => true
  | .bjson (.jbool b) => !b
  | .bjson (.jnum n) => n = 0
  | _ => false

/-- `typeof body === 'string' ? body : JSON.stringify(body)`. -/
def Body.serialize : Body → String
  | .bstr s => s
  | .bjson j => j.stringify

/-! ## Shared policies from `src/network.ts` -/

/-- `DEFAULT_SENSITIVE_HEADERS` (src/network.ts:7). -/
def DEFAULT_SENSITIVE_HEADERS : List String :=
  ["authorization", "cookie", "set-cookie", "x-api-key", "api-key",
   "access-token", "refresh-token"]

/-- JavaScript `String.prototype.toLowerCase` on the ASCII range. -/
def toLowerCase (s : String) : String :=
  String.mk (s.data.map (fun c =>
    if 65 ≤ c.toNat ∧ c.toNat ≤ 90 then Char.ofNat (c.toNat + 32) else c))

/-- `filterSensitiveHeaders` (src/network.ts:33): for each header key,
emit `[REDACTED]` when the lowercased key is in the lowercased sensitive
set, otherwise the header's string value; `undefined` headers give the
empty mapping. Header mappings are association lists in key order. -/
def filterSensitiveHeaders (headers : Option (List (String × String)))
    (sensitiveHeaders : List String) : List (String × String) :=
  match headers with
  | none => []
  | some hs =>
    let sensitiveLowers := sensitiveHeaders.map toLowerCase
    hs.foldl (fun filtered kv =>
      if sensitiveLowers.contains (toLowerCase kv.1) then
        filtered ++ [(kv.1, "[REDACTED]")]
      else
        filtered ++ [(kv.1, kv.2)]) []

/-- `truncateBody` (src/network.ts:56): falsy bodies are returned as-is;
otherwise the body is serialized for measurement and replaced by a
truncated string when the serialization exceeds `maxLength`. -/
def truncateBody (body : Body) (maxLength : Nat := 10000) : Body :=
  if body.isFalsy then body
  else
    let bodyStr := body.serialize
    if bodyStr.length > maxLength then
      .bstr (bodyStr.take maxLength ++ "... [truncated]")
    else body

/-! ## The event store: class `QALogger` (src/DebugButton.tsx:453) -/

/-- `LogLevel` enum (src/types, re-exported in network.ts:502). -/
inductive LogLevel where
  | info
  | warn
  | error
  | network
  deriving DecidableEq, Repr

/-- A JavaScript value raised as an uncaught error: a native `Error`
object (with `message` and optional `stack`), a plain string, a plain
object (optional `message` field plus its `toString()` text), or any
other value with its `String(...)` rendering. -/
inductive ErrVal where
  | errObj (message : String) (stack : Option String)
  | str (s : String)
  | obj (message : Option String) (toStr : String)
  | other (toStr : String)
  deriving DecidableEq, Repr

/-- Network-specific fields of a `NetworkLogEntry`
(src/network.ts:529), minus the common `id`/`timestamp`/`level`. -/
structure NetworkFields where
  message : String
  url : String := ""
  method : String := ""
  statusCode : Option Nat := none
  duration : Option Nat := none
  requestHeaders : Option (List (String × String)) := none
  requestBody : Option Body := none
  responseHeaders : Option (List (String × String)) := none
  responseBody : Option Body := none
  error : Option String := none

/-- `LogEntry` (src/network.ts:517); Network entries additionally carry
their `NetworkFields`. -/
structure LogEntry where
  id : String
  timestamp : Nat
  level : LogLevel
  message : String
  data : Option ErrVal := none
  stackTrace : Option String := none
  network : Option NetworkFields := none

/-- A subscriber callback, abstracted to its identity and whether
invoking it throws. -/
structure Listener where
  id : Nat
  throws : Bool
  deriving DecidableEq, Repr

/-- The mutable fields of the `QALogger` singleton
(src/DebugButton.tsx:454-457); the listener `Set` is a
insertion-ordered duplicate-free list. -/
structure QALogger where
  logs : List LogEntry := []
  maxLogs : Nat := 1000
  enabled : Bool := false
  listeners : List Listener := []

namespace QALogger

/-- `generateId` (src/DebugButton.tsx:500): the current clock value and
the random suffix drawn by `Math.random().toString(36).substr(2, 9)`
are explicit inputs. -/
def generateId (now : Nat) (rand : String) : String :=
  toString now ++ "-" ++ rand

/-- Running `listeners.forEach(listener => listener())`
(src/DebugButton.tsx:629): returns the ids of the callbacks actually
invoked, in order, and whether an exception escaped the loop.  A
throwing callback is invoked, then the exception propagates and the
remaining callbacks are skipped. -/
def notifyRun : List Listener → List Nat × Bool
  | [] => ([], false)
  | l :: rest =>
    if l.throws then ([l.id], true)
    else
      let r := notifyRun rest
      (l.id :: r.1, r.2)

/-- `addLog` (src/DebugButton.tsx:483): append, drop the oldest entry
when over `maxLogs`, then notify.  Alongside the new state it returns
the notified listener ids and whether a listener exception escaped. -/
def addLog (s : QALogger) (log : LogEntry) : QALogger × List Nat × Bool :=
  if s.enabled = false then (s, [], false)
  else
    let logs1 := s.logs ++ [log]
    let logs2 := if logs1.length > s.maxLogs then logs1.tail else logs1
    let r := notifyRun s.listeners
    ({ s with logs := logs2 }, r.1, r.2)

/-- `info` (src/DebugButton.tsx:507). -/
def info (s : QALogger) (now : Nat) (rand message : String)
    (data : Option ErrVal := none) : QALogger × List Nat × Bool :=
  if s.enabled = false then (s, [], false)
  else addLog s
    { id := generateId now rand, timestamp := now, level := .info,
      message := message, data := data }

/-- `warn` (src/DebugButton.tsx:524). -/
def warn (s : QALogger) (now : Nat) (rand message : String)
    (data : Option ErrVal := none) : QALogger × List Nat × Bool :=
  if s.enabled = false then (s, [], false)
  else addLog s
    { id := generateId now rand, timestamp := now, level := .warn,
      message := message, data := data }

/-- `error.stack` when the raised value is a native `Error`, as in
`error instanceof Error ? error.stack : undefined`. -/
def errInstanceStack : Option ErrVal → Option String
  | some (.errObj _ st) => st
  | _ => none

/-- `stackTrace || (error instanceof Error ? error.stack : undefined)`
(src/DebugButton.tsx:550); an empty string is falsy. -/
def errorStackFallback (stackTrace : Option String) (err : Option ErrVal) :
    Option String :=
  match stackTrace with
  | some st => if st = "" then errInstanceStack err else some st
  | none => errInstanceStack err

/-- `error` (src/DebugButton.tsx:541). -/
def error (s : QALogger) (now : Nat) (rand message : String)
    (err : Option ErrVal := none) (stackTrace : Option String := none) :
    QALogger × List Nat × Bool :=
  if s.enabled = false then (s, [], false)
  else addLog s
    { id := generateId now rand, timestamp := now, level := .error,
      message := message, data := err,
      stackTrace := errorStackFallback stackTrace err }

/-- `network` (src/DebugButton.tsx:559). -/
def network (s : QALogger) (now : Nat) (rand : String)
    (fields : NetworkFields) : QALogger × List Nat × Bool :=
  if s.enabled = false then (s, [], false)
  else addLog s
    { id := generateId now rand, timestamp := now, level := .network,
      message := fields.message, network := some fields }

/-- `getAllLogs` (src/DebugButton.tsx:575): a snapshot copy in
insertion order. -/
def getAllLogs (s : QALogger) : List LogEntry :=
  s.logs

/-- `LogFilter` (src/network.ts:512). -/
inductive LogFilter where
  | all
  | network
  | errors
  deriving DecidableEq, Repr

/-- `getFilteredLogs` (src/DebugButton.tsx:582). -/
def getFilteredLogs (s : QALogger) : LogFilter → List LogEntry
  | .all => getAllLogs s
  | .network => s.logs.filter (fun log => log.level == LogLevel.network)
  | .errors => s.logs.filter (fun log => log.level == LogLevel.error)

/-- `clearLogs` (src/DebugButton.tsx:601): empties the list and
notifies, with no `enabled` check. -/
def clearLogs (s : QALogger) : QALogger × List Nat × Bool :=
  let r := notifyRun s.listeners
  ({ s with logs := [] }, r.1, r.2)

/-- `getLogCount` (src/DebugButton.tsx:609). -/
def getLogCount (s : QALogger) : Nat :=
  s.logs.length

/-- `subscribe` (src/DebugButton.tsx:616): `Set.add` keeps insertion
order and ignores duplicates. -/
def subscribe (s : QALogger) (l : Listener) : QALogger :=
  if s.listeners.contains l then s
  else { s with listeners := s.listeners ++ [l] }

/-- The unsubscribe closure returned by `subscribe`
(src/DebugButton.tsx:620): `Set.delete`. -/
def unsubscribe (s : QALogger) (l : Listener) : QALogger :=
  { s with listeners := s.listeners.filter (fun x => x != l) }

/-- `QALoggerConfig` (src/network.ts:545), as consumed by `configure`. -/
structure Config where
  maxLogs : Option Nat := none
  enableNetworkLogging : Option Bool := none
  enableErrorLogging : Option Bool := none
  sensitiveHeaders : Option (List String) := none

/-- `configure` (src/DebugButton.tsx:467): only `maxLogs` is read, and
only the bound is updated. -/
def configure (s : QALogger) (config : Config) : QALogger :=
  match config.maxLogs with
  | some m => { s with maxLogs := m }
  | none => s

/-- One call of a record operation, with its clock and random inputs. -/
inductive RecOp where
  | opInfo (now : Nat) (rand message : String) (data : Option ErrVal)
  | opWarn (now : Nat) (rand message : String) (data : Option ErrVal)
  | opError (now : Nat) (rand message : String) (err : Option ErrVal)
      (stackTrace : Option String)
  | opNetwork (now : Nat) (rand : String) (fields : NetworkFields)

/-- The store state after one record operation. -/
def runOp (s : QALogger) : RecOp → QALogger
  | .opInfo n r m d => (info s n r m d).1
  | .opWarn n r m d => (warn s n r m d).1
  | .opError n r m e st => (error s n r m e st).1
  | .opNetwork n r f => (network s n r f).1

/-- The store state after a sequence of record operations. -/
def runOps (s : QALogger) (ops : List RecOp) : QALogger :=
  ops.foldl runOp s

end QALogger

/-! ## Global fetch interceptor (src/network.ts:182-287) -/

/-- A reference to a fetch-like function: either some original host
function, or the logging wrapper built around an inner reference. -/
inductive FetchFun where
  | base (n : Nat)
  | wrapper (inner : FetchFun)
  deriving DecidableEq, Repr

/-- The module state of the fetch interceptor: the current
`global.fetch` reference, the saved `originalFetch` (network.ts:182),
and whether `logger.isEnabled()`. -/
structure FetchState where
  globalFetch : FetchFun
  originalFetch : Option FetchFun := none
  enabled : Bool := true

/-- `setupFetchLogger` (src/network.ts:188): no-op when the logger is
disabled or when `originalFetch` is already saved; otherwise saves the
current `global.fetch` and replaces it with the wrapper. -/
def setupFetchLogger (s : FetchState) : FetchState :=
  if s.enabled = false then s
  else if s.originalFetch.isSome then s
  else
    { s with
      originalFetch := some s.globalFetch,
      globalFetch := .wrapper s.globalFetch }

/-- `restoreFetchLogger` (src/network.ts:282): when a saved reference
exists, reinstall it and clear the saved reference. -/
def restoreFetchLogger (s : FetchState) : FetchState :=
  match s.originalFetch with
  | some f => { s with globalFetch := f, originalFetch := none }
  | none => s

/-! ## XMLHttpRequest interceptor (src/network.ts:293-425) -/

/-- A reference to an XHR prototype method: an original host function,
or one of the three logging wrappers built around an inner reference. -/
inductive XHRFun where
  | base (n : Nat)
  | wrappedOpen (inner : XHRFun)
  | wrappedSetRequestHeader (inner : XHRFun)
  | wrappedSend (inner : XHRFun)
  deriving DecidableEq, Repr

/-- The module state of the XHR interceptor: the three patched
prototype slots and the two module-level saved references
(network.ts:293-294).  The original `setRequestHeader` is captured only
in a local `const` inside `setupXHRLogger` (network.ts:338) and has no
module-level slot. -/
structure XHRState where
  protoOpen : XHRFun
  protoSetRequestHeader : XHRFun
  protoSend : XHRFun
  originalXHROpen : Option XHRFun := none
  originalXHRSend : Option XHRFun := none
  enabled : Bool := true

/-- `setupXHRLogger` (src/network.ts:300): no-op when the logger is
disabled or `originalXHROpen` is already saved; otherwise saves `open`
and `send` and wraps all three prototype methods. -/
def setupXHRLogger (s : XHRState) : XHRState :=
  if s.enabled = false then s
  else if s.originalXHROpen.isSome then s
  else
    { s with
      originalXHROpen := some s.protoOpen,
      originalXHRSend := some s.protoSend,
      protoOpen := .wrappedOpen s.protoOpen,
      protoSetRequestHeader := .wrappedSetRequestHeader s.protoSetRequestHeader,
      protoSend := .wrappedSend s.protoSend }

/-- `restoreXHRLogger` (src/network.ts:416): restores `open` and `send`
from their saved references and clears them; `setRequestHeader` is not
touched. -/
def restoreXHRLogger (s : XHRState) : XHRState :=
  let s1 :=
    match s.originalXHROpen with
    | some f => { s with protoOpen := f, originalXHROpen := none }
    | none => s
  match s1.originalXHRSend with
  | some f => { s1 with protoSend := f, originalXHRSend := none }
  | none => s1

/-! ## Global error handler (errorHandler module, src/unnamed/part_000) -/

/-- Whether `pat` occurs as a contiguous run inside `cs`. -/
def jsIncludesAux (pat : List Char) : List Char → Bool
  | [] => pat.isEmpty
  | c :: rest => pat.isPrefixOf (c :: rest) || jsIncludesAux pat rest

/-- `message.includes(pattern)` on strings. -/
def jsIncludes (s pat : String) : Bool :=
  jsIncludesAux pat.toList s.toList

/-- `IGNORE_PATTERNS` (part_000:766). -/
def IGNORE_PATTERNS : List String :=
  ["RCTEventEmitter", "registerCallableModule",
   "Module has not been registered", "[QALogger]",
   "RCTDeviceEventEmitter", "Callable JavaScript modules", "receiveEvent"]

/-- `shouldIgnoreError` (part_000:779): an empty (falsy) message is
ignored outright; otherwise the message is ignored when it contains one
of the patterns. -/
def shouldIgnoreError (message : String) : Bool :=
  if message = "" then true
  else IGNORE_PATTERNS.any (fun pat => jsIncludes message pat)

/-- `formatStackTrace` (part_000:787): `error.stack` when present and
truthy, else a fixed fallback text. -/
def formatStackTrace (stack : Option String) : String :=
  match stack with
  | some st => if st = "" then "No stack trace available" else st
  | none => "No stack trace available"

/-- `extractErrorMessage` (part_000:797). -/
def extractErrorMessage : ErrVal → String
  | .errObj m _ => m
  | .str s => s
  | .obj m toStr =>
    match m with
    | some mm => if mm = "" then toStr else mm
    | none => toStr
  | .other toStr => toStr

/-- The handler installed by `setupErrorHandlers` (part_000:844), after
the guarded call to the previous handler: extract the message, drop the
event when `shouldIgnoreError`, otherwise record one Error event with
the optional fatal marker and, for native `Error` values, the formatted
stack trace. -/
def handleGlobalError (s : QALogger) (now : Nat) (rand : String)
    (err : ErrVal) (isFatal : Bool) : QALogger × List Nat × Bool :=
  let message := extractErrorMessage err
  if shouldIgnoreError message then (s, [], false)
  else
    let stackTrace : Option String :=
      match err with
      | .errObj _ st => some (formatStackTrace st)
      | _ => none
    QALogger.error s now rand
      (if isFatal then "[FATAL] " ++ message else message)
      (some err) stackTrace

end QA

/-! ## Theorems -/

open QA QA.QALogger

/-- `addLog` never changes the capacity bound. -/
theorem addLog_fst_maxLogs (s : QALogger) (e : LogEntry) :
    (addLog s e).1.maxLogs = s.maxLogs := by
  by_cases h : s.enabled = false <;> simp [addLog, h]

/-- `addLog` keeps the count within the capacity bound. -/
theorem addLog_fst_length_le (s : QALogger) (e : LogEntry)
    (h : s.logs.length ≤ s.maxLogs) :
    (addLog s e).1.logs.length ≤ s.maxLogs := by
  by_cases hen : s.enabled = false
  · simpa [addLog, hen] using h
  · simp [addLog, hen]
    by_cases hover : s.maxLogs < s.logs.length + 1
    · rw [if_pos hover]
      simp [List.length_tail, List.length_append]
      exact h
    · rw [if_neg hover]
      simp [List.length_append]
      omega

/-- A single record operation keeps the capacity bound unchanged. -/
theorem runOp_maxLogs (s : QALogger) (op : RecOp) :
    (runOp s op).maxLogs = s.maxLogs := by
  cases op <;>
    simp only [runOp, info, warn, error, network] <;>
    by_cases hen : s.enabled = false <;>
    simp [hen, addLog_fst_maxLogs]

/-- A single record operation keeps the count within the bound. -/
theorem runOp_length_le (s : QALogger) (op : RecOp)
    (h : s.logs.length ≤ s.maxLogs) :
    (runOp s op).logs.length ≤ (runOp s op).maxLogs := by
  cases op <;>
    simp only [runOp, info, warn, error, network] <;>
    by_cases hen : s.enabled = false <;>
    simp [hen, addLog_fst_maxLogs, addLog_fst_length_le, h]

/-- A sequence of record operations keeps the count within the bound. -/
theorem runOps_length_le (ops : List RecOp) :
    ∀ s : QALogger, s.logs.length ≤ s.maxLogs →
      (runOps s ops).logs.length ≤ (runOps s ops).maxLogs := by
  induction ops with
  | nil => intro s h; simpa [runOps] using h
  | cons op rest ih =>
    intro s h
    have h1 := runOp_length_le s op h
    simpa [runOps, List.foldl_cons] using ih (runOp s op) h1

/-- A sequence of record operations never changes the bound. -/
theorem runOps_maxLogs (ops : List RecOp) :
    ∀ s : QALogger, (runOps s ops).maxLogs = s.maxLogs := by
  induction ops with
  | nil => intro s; simp [runOps]
  | cons op rest ih =>
    intro s
    simpa [runOps, List.foldl_cons, runOp_maxLogs] using ih (runOp s op)

/-- C1: on a store whose count is within the configured `maxLogs`
bound, any sequence of record operations (info, warn, error, network)
leaves `getLogCount` at most the bound after every operation, and
eviction is FIFO: with `maxLogs = 2`, recording Info events A, B, C in
order leaves `getAllLogs` equal to exactly the entries for B and C. -/
theorem C1_capacity_bound_and_fifo :
    (∀ (s : QALogger) (ops : List RecOp),
      s.logs.length ≤ s.maxLogs →
      getLogCount (runOps s ops) ≤ s.maxLogs)
    ∧
    getAllLogs
      (runOps { logs := [], maxLogs := 2, enabled := true, listeners := [] }
        [.opInfo 1 "aaa" "A" none, .opInfo 2 "bbb" "B" none,
         .opInfo 3 "ccc" "C" none]) =
      [{ id := "2-bbb", timestamp := 2, level := .info, message := "B" },
       { id := "3-ccc", timestamp := 3, level := .info, message := "C" }] := by
  constructor
  · intro s ops h
    have h1 := runOps_length_le ops s h
    rw [runOps_maxLogs ops s] at h1
    exact h1
  · rfl

/-- Witness for C1 at a concrete store and operation list. -/
theorem C1_capacity_bound_and_fifo_witness :
    getLogCount
      (runOps { logs := [], maxLogs := 2, enabled := true, listeners := [] }
        [.opInfo 1 "aaa" "A" none, .opInfo 2 "bbb" "B" none,
         .opInfo 3 "ccc" "C" none]) ≤ 2 :=
  C1_capacity_bound_and_fifo.1
    { logs := [], maxLogs := 2, enabled := true, listeners := [] }
    [.opInfo 1 "aaa" "A" none, .opInfo 2 "bbb" "B" none,
     .opInfo 3 "ccc" "C" none]
    (by decide)

/-- Notification stops at the first throwing listener: the listeners
before it run, it runs, the rest are skipped, and the exception
escapes. -/
theorem notifyRun_of_throw (pre post : List Listener) (t : Listener)
    (hpre : ∀ l ∈ pre, l.throws = false) (ht : t.throws = true) :
    notifyRun (pre ++ t :: post) = (pre.map Listener.id ++ [t.id], true) := by
  induction pre with
  | nil => simp [notifyRun, ht]
  | cons l rest ih =>
    have hl : l.throws = false := hpre l (by simp)
    have hrest : ∀ x ∈ rest, x.throws = false := fun x hx => hpre x (by simp [hx])
    simp [notifyRun, hl, ih hrest]

/-- C2 counterexample: on an enabled store with two subscribers where
the first throws, recording an Info event invokes only the first
subscriber; the second subscriber (id 1) is never notified and the
exception escapes — refuting per-subscriber isolation. -/
theorem C2_counterexample :
    (info
      { logs := [], maxLogs := 10, enabled := true,
        listeners := [⟨0, true⟩, ⟨1, false⟩] }
      1 "aaa" "m" none).2.1 = [0] ∧
    (1 : Nat) ∉
      (info
        { logs := [], maxLogs := 10, enabled := true,
          listeners := [⟨0, true⟩, ⟨1, false⟩] }
        1 "aaa" "m" none).2.1 ∧
    (info
      { logs := [], maxLogs := 10, enabled := true,
        listeners := [⟨0, true⟩, ⟨1, false⟩] }
      1 "aaa" "m" none).2.2 = true := by
  refine ⟨rfl, ?_, rfl⟩
  decide

/-- C2 amended: a throwing subscriber halts notification.  On an
enabled store whose listener list is `pre ++ t :: post` with `pre`
non-throwing and `t` throwing, `addLog` invokes exactly the listeners
of `pre` followed by `t` (so none of `post`), the exception escapes to
the caller, and the appended/evicted log list is still the one the
record produced. -/
theorem C2_subscriber_throw_halts (s : QALogger) (e : LogEntry)
    (pre post : List Listener) (t : Listener)
    (hen : s.enabled = true)
    (hl : s.listeners = pre ++ t :: post)
    (hpre : ∀ l ∈ pre, l.throws = false)
    (ht : t.throws = true) :
    (addLog s e).2.1 = pre.map Listener.id ++ [t.id] ∧
    (addLog s e).2.2 = true ∧
    (addLog s e).1.logs =
      (if (s.logs ++ [e]).length > s.maxLogs then (s.logs ++ [e]).tail
       else s.logs ++ [e]) := by
  have hen' : ¬s.enabled = false := by simp [hen]
  refine ⟨?_, ?_, ?_⟩ <;>
    simp [addLog, hen', hl, notifyRun_of_throw pre post t hpre ht]

/-- Witness for C2's amended theorem at a concrete store. -/
theorem C2_subscriber_throw_halts_witness :
    (addLog
      { logs := [], maxLogs := 10, enabled := true,
        listeners := [⟨0, false⟩, ⟨1, true⟩, ⟨2, false⟩] }
      { id := "1-aaa", timestamp := 1, level := .info, message := "m" }).2.1 =
      [0, 1] :=
  (C2_subscriber_throw_halts
    { logs := [], maxLogs := 10, enabled := true,
      listeners := [⟨0, false⟩, ⟨1, true⟩, ⟨2, false⟩] }
    { id := "1-aaa", timestamp := 1, level := .info, message := "m" }
    [⟨0, false⟩] [⟨2, false⟩] ⟨1, true⟩
    rfl rfl (by decide) rfl).1

/-- C3 counterexample: ids are strings built from the clock and a
random suffix.  Two successive records at clocks 9 then 10 with the
same random suffix store ids `"9-aaaaaaaaa"` then `"10-aaaaaaaaa"`,
which are not increasing in string order; and two records in the same
millisecond with the same random draw store identical ids, so ids are
not unique. -/
theorem C3_counterexample :
    (getAllLogs
      (info (info { logs := [], maxLogs := 10, enabled := true, listeners := [] }
          9 "aaaaaaaaa" "A" none).1
        10 "aaaaaaaaa" "B" none).1).map LogEntry.id =
      ["9-aaaaaaaaa", "10-aaaaaaaaa"] ∧
    ¬("9-aaaaaaaaa" < "10-aaaaaaaaa") ∧
    ((getAllLogs
      (info (info { logs := [], maxLogs := 10, enabled := true, listeners := [] }
          5 "zzzzzzzzz" "A" none).1
        5 "zzzzzzzzz" "B" none).1).map LogEntry.id).Nodup = False := by
  refine ⟨rfl, ?_, ?_⟩
  · rw [String.lt_iff_toList_lt]
    decide
  · simp [getAllLogs, info, addLog, generateId, notifyRun]

/-- On an enabled store with positive capacity, the entry just added is
the last stored entry (eviction only drops from the front). -/
theorem addLog_fst_getLast (s : QALogger) (e : LogEntry)
    (hen : ¬s.enabled = false) (hcap : 0 < s.maxLogs) :
    (addLog s e).1.logs.getLast? = some e := by
  simp [addLog, hen]
  by_cases hover : s.maxLogs < s.logs.length + 1
  · rw [if_pos hover]
    cases hlogs : s.logs with
    | nil =>
      exfalso
      rw [hlogs] at hover
      simp at hover
      omega
    | cons x xs =>
      simp [List.getLast?_concat]
  · rw [if_neg hover]
    simp [List.getLast?_concat]

/-- C3 amended: the id assigned to a stored event is exactly the
decimal clock value and the random suffix joined by `"-"`
(`generateId`), so ids are unique and increasing only insofar as those
input pairs are; the newly recorded event is always the last entry. -/
theorem C3_id_format (s : QALogger) (now : Nat) (rand msg : String)
    (d : Option ErrVal) (hen : s.enabled = true) (hcap : 0 < s.maxLogs) :
    generateId now rand = toString now ++ "-" ++ rand ∧
    (info s now rand msg d).1.logs.getLast? =
      some { id := toString now ++ "-" ++ rand, timestamp := now,
             level := .info, message := msg, data := d } := by
  have hen' : ¬s.enabled = false := by simp [hen]
  refine ⟨rfl, ?_⟩
  rw [show (info s now rand msg d) = addLog s
      { id := toString now ++ "-" ++ rand, timestamp := now,
        level := .info, message := msg, data := d } by
    simp [info, hen', generateId]]
  exact addLog_fst_getLast s _ hen' hcap

/-- Witness for C3's amended theorem at a concrete store. -/
theorem C3_id_format_witness :
    (info { logs := [], maxLogs := 10, enabled := true, listeners := [] }
      42 "abc123xyz" "hello" none).1.logs.getLast? =
      some { id := "42-abc123xyz", timestamp := 42,
             level := .info, message := "hello" } :=
  (C3_id_format { logs := [], maxLogs := 10, enabled := true, listeners := [] }
    42 "abc123xyz" "hello" none rfl (by decide)).2

/-- C4 counterexample: a store holding three entries, reconfigured to
`maxLogs = 1`, still reports a count of 3 — `configure` does not evict
— and a further record still leaves the count at 3, not 1. -/
theorem C4_counterexample :
    getLogCount
      (configure
        { logs := [{ id := "1-a", timestamp := 1, level := .info, message := "A" },
                   { id := "2-b", timestamp := 2, level := .info, message := "B" },
                   { id := "3-c", timestamp := 3, level := .info, message := "C" }],
          maxLogs := 10, enabled := true, listeners := [] }
        { maxLogs := some 1 }) = 3 ∧
    (configure
        { logs := [{ id := "1-a", timestamp := 1, level := .info, message := "A" },
                   { id := "2-b", timestamp := 2, level := .info, message := "B" },
                   { id := "3-c", timestamp := 3, level := .info, message := "C" }],
          maxLogs := 10, enabled := true, listeners := [] }
        { maxLogs := some 1 }).maxLogs = 1 ∧
    getLogCount
      (runOp
        (configure
          { logs := [{ id := "1-a", timestamp := 1, level := .info, message := "A" },
                     { id := "2-b", timestamp := 2, level := .info, message := "B" },
                     { id := "3-c", timestamp := 3, level := .info, message := "C" }],
            maxLogs := 10, enabled := true, listeners := [] }
          { maxLogs := some 1 })
        (.opInfo 4 "ddd" "D" none)) = 3 := by
  refine ⟨rfl, rfl, rfl⟩

/-- C4 amended: `configure` only updates the bound and never trims the
list; once the count is at or above the bound, each subsequent record
appends one entry and evicts one, leaving the count unchanged (so a
count above a newly lowered bound stays above it). -/
theorem C4_configure_updates_bound_only (s : QALogger) (cfg : Config)
    (e : LogEntry) (hen : s.enabled = true) :
    (configure s cfg).logs = s.logs ∧
    (∀ m, cfg.maxLogs = some m → (configure s cfg).maxLogs = m) ∧
    (s.maxLogs ≤ s.logs.length →
      (addLog s e).1.logs.length = s.logs.length) := by
  have hen' : ¬s.enabled = false := by simp [hen]
  refine ⟨?_, ?_, ?_⟩
  · cases h : cfg.maxLogs <;> simp [configure, h]
  · intro m hm; simp [configure, hm]
  · intro hfull
    have hover : (s.logs ++ [e]).length > s.maxLogs := by
      simp [List.length_append]
      omega
    simp only [addLog, if_neg hen', if_pos hover]
    simp [List.length_tail, List.length_append]

/-- Witness for C4's amended theorem at a concrete store. -/
theorem C4_configure_updates_bound_only_witness :
    (configure
      { logs := [{ id := "1-a", timestamp := 1, level := .info, message := "A" }],
        maxLogs := 10, enabled := true, listeners := [] }
      { maxLogs := some 1 }).logs =
      [{ id := "1-a", timestamp := 1, level := .info, message := "A" }] :=
  (C4_configure_updates_bound_only
    { logs := [{ id := "1-a", timestamp := 1, level := .info, message := "A" }],
      maxLogs := 10, enabled := true, listeners := [] }
    { maxLogs := some 1 }
    { id := "2-b", timestamp := 2, level := .info, message := "B" }
    rfl).1

/-- C5 counterexample: from a clean enabled state, `setupXHRLogger`
followed by `restoreXHRLogger` returns `open` and `send` to their
originals, but leaves `setRequestHeader` wrapped — not its pre-install
reference. -/
theorem C5_counterexample :
    (restoreXHRLogger (setupXHRLogger
        { protoOpen := .base 0, protoSetRequestHeader := .base 1,
          protoSend := .base 2 })).protoSetRequestHeader ≠ .base 1 ∧
    (restoreXHRLogger (setupXHRLogger
        { protoOpen := .base 0, protoSetRequestHeader := .base 1,
          protoSend := .base 2 })).protoSetRequestHeader =
      .wrappedSetRequestHeader (.base 1) ∧
    (restoreXHRLogger (setupXHRLogger
        { protoOpen := .base 0, protoSetRequestHeader := .base 1,
          protoSend := .base 2 })).protoOpen = .base 0 ∧
    (restoreXHRLogger (setupXHRLogger
        { protoOpen := .base 0, protoSetRequestHeader := .base 1,
          protoSend := .base 2 })).protoSend = .base 2 := by
  refine ⟨by decide, rfl, rfl, rfl⟩

/-- C5 amended: on an enabled, not-yet-installed XHR state,
`setupXHRLogger` then `restoreXHRLogger` returns `open` and `send` to
their exact pre-install references and clears the saved references,
but `setRequestHeader` remains wrapped (its original lives only in a
local of `setupXHRLogger` and is never restored). -/
theorem C5_restore_leaves_setRequestHeader_wrapped (s : XHRState)
    (hen : s.enabled = true)
    (hopen : s.originalXHROpen = none)
    (hsend : s.originalXHRSend = none) :
    restoreXHRLogger (setupXHRLogger s) =
      { s with protoSetRequestHeader :=
          .wrappedSetRequestHeader s.protoSetRequestHeader } := by
  have hen' : ¬s.enabled = false := by simp [hen]
  simp [setupXHRLogger, restoreXHRLogger, hen', hopen, hsend]

/-- Witness for C5's amended theorem at a concrete state. -/
theorem C5_restore_leaves_setRequestHeader_wrapped_witness :
    restoreXHRLogger (setupXHRLogger
      { protoOpen := .base 7, protoSetRequestHeader := .base 8,
        protoSend := .base 9 }) =
      { protoOpen := .base 7,
        protoSetRequestHeader := .wrappedSetRequestHeader (.base 8),
        protoSend := .base 9 } :=
  C5_restore_leaves_setRequestHeader_wrapped
    { protoOpen := .base 7, protoSetRequestHeader := .base 8,
      protoSend := .base 9 }
    rfl rfl rfl

/-- C8: installing the fetch wrapper twice is the same as installing it
once (for every state), and from an enabled, not-yet-installed state,
`setupFetchLogger` saves exactly the current global fetch reference,
and `restoreFetchLogger` reinstalls that exact reference and clears the
saved slot, returning the whole state to its pre-install value. -/
theorem C8_fetch_idempotent_and_restore :
    (∀ s : FetchState, setupFetchLogger (setupFetchLogger s) = setupFetchLogger s)
    ∧
    (∀ s : FetchState, s.enabled = true → s.originalFetch = none →
      (setupFetchLogger s).originalFetch = some s.globalFetch ∧
      (setupFetchLogger s).globalFetch = .wrapper s.globalFetch ∧
      restoreFetchLogger (setupFetchLogger s) = s) := by
  constructor
  · intro s
    by_cases hen : s.enabled = false
    · simp [setupFetchLogger, hen]
    · by_cases hsaved : s.originalFetch.isSome
      · simp [setupFetchLogger, hen, hsaved]
      · simp [setupFetchLogger, hen, hsaved]
  · intro s hen hsaved
    obtain ⟨g, o, en⟩ := s
    simp only at hen hsaved
    subst hen hsaved
    refine ⟨?_, ?_, ?_⟩ <;>
      simp [setupFetchLogger, restoreFetchLogger]

/-- Witness for C8 at a concrete state. -/
theorem C8_fetch_idempotent_and_restore_witness :
    restoreFetchLogger (setupFetchLogger
      { globalFetch := .base 3, originalFetch := none, enabled := true }) =
      { globalFetch := .base 3, originalFetch := none, enabled := true } :=
  (C8_fetch_idempotent_and_restore.2
    { globalFetch := .base 3, originalFetch := none, enabled := true }
    rfl rfl).2.2

/-- The redaction fold builds, after any accumulator, the map of the
per-header redaction function over the input. -/
theorem filterSensitiveHeaders_foldl (sens : List String) :
    ∀ (hs : List (String × String)) (acc : List (String × String)),
      hs.foldl (fun filtered kv =>
        if (sens.map toLowerCase).contains (toLowerCase kv.1) then
          filtered ++ [(kv.1, "[REDACTED]")]
        else filtered ++ [(kv.1, kv.2)]) acc =
      acc ++ hs.map (fun kv => (kv.1,
        if (sens.map toLowerCase).contains (toLowerCase kv.1) then "[REDACTED]"
        else kv.2)) := by
  intro hs
  induction hs with
  | nil => intro acc; simp
  | cons kv rest ih =>
    intro acc
    rw [List.foldl_cons, List.map_cons]
    by_cases hc : (sens.map toLowerCase).contains (toLowerCase kv.1) = true
    · show List.foldl _ (if _ then _ else _) rest = _
      rw [if_pos hc, ih, if_pos hc]
      simp
    · show List.foldl _ (if _ then _ else _) rest = _
      rw [if_neg hc, ih, if_neg hc]
      simp

/-- The redaction of a present headers mapping, as a map over the
association list. -/
theorem filterSensitiveHeaders_eq_map (hs : List (String × String))
    (sens : List String) :
    filterSensitiveHeaders (some hs) sens =
      hs.map (fun kv => (kv.1,
        if (sens.map toLowerCase).contains (toLowerCase kv.1) then "[REDACTED]"
        else kv.2)) := by
  simpa [filterSensitiveHeaders] using filterSensitiveHeaders_foldl sens hs []

/-- Membership in the lowercased sensitive set is exactly
case-insensitive matching of some configured name. -/
theorem contains_toLowerCase_iff (sens : List String) (k : String) :
    (sens.map toLowerCase).contains (toLowerCase k) = true ↔
      ∃ sn ∈ sens, toLowerCase sn = toLowerCase k := by
  simp [List.contains_iff_exists_mem_beq, beq_iff_eq]

/-- C6: redaction preserves the header names and their order; the
header at any position keeps its name, its value becoming the fixed
marker `"[REDACTED]"` exactly when the name matches one of the
configured sensitive names case-insensitively, and staying its
original string value otherwise. -/
theorem C6_header_redaction (hs : List (String × String))
    (sens : List String) (i : Nat) (hi : i < hs.length) :
    (filterSensitiveHeaders (some hs) sens).length = hs.length ∧
    ((∃ sn ∈ sens, toLowerCase sn = toLowerCase (hs.getD i ("", "")).1) →
      (filterSensitiveHeaders (some hs) sens).getD i ("", "") =
        ((hs.getD i ("", "")).1, "[REDACTED]")) ∧
    ((∀ sn ∈ sens, toLowerCase sn ≠ toLowerCase (hs.getD i ("", "")).1) →
      (filterSensitiveHeaders (some hs) sens).getD i ("", "") =
        hs.getD i ("", "")) := by
  rw [filterSensitiveHeaders_eq_map]
  have hget : hs.getD i ("", "") = hs[i] := List.getD_eq_getElem hs ("", "") hi
  have hmget : (hs.map (fun kv => (kv.1,
      if (sens.map toLowerCase).contains (toLowerCase kv.1) then "[REDACTED]"
      else kv.2))).getD i ("", "") = (hs[i].1,
      if (sens.map toLowerCase).contains (toLowerCase hs[i].1) then "[REDACTED]"
      else hs[i].2) := by
    rw [List.getD_eq_getElem _ _ (by simpa using hi)]
    simp
  refine ⟨by simp, ?_, ?_⟩
  · intro hmatch
    rw [hget] at hmatch
    rw [hmget, hget]
    have hb : (sens.map toLowerCase).contains (toLowerCase hs[i].1) = true :=
      (contains_toLowerCase_iff sens hs[i].1).2 hmatch
    rw [if_pos hb]
  · intro hmiss
    rw [hget] at hmiss
    rw [hmget, hget]
    have hb : ¬((sens.map toLowerCase).contains (toLowerCase hs[i].1) = true) := by
      rw [contains_toLowerCase_iff sens hs[i].1]
      push_neg
      exact hmiss
    rw [if_neg hb]

/-- Witness for C6: the default sensitive set redacts a case-variant
`Authorization` header and passes an unrelated header through. -/
theorem C6_header_redaction_witness :
    (filterSensitiveHeaders
      (some [("Authorization", "secret"), ("content-type", "json")])
      DEFAULT_SENSITIVE_HEADERS).getD 0 ("", "") =
      ("Authorization", "[REDACTED]") ∧
    (filterSensitiveHeaders
      (some [("Authorization", "secret"), ("content-type", "json")])
      DEFAULT_SENSITIVE_HEADERS).getD 1 ("", "") =
      ("content-type", "json") :=
  ⟨(C6_header_redaction
      [("Authorization", "secret"), ("content-type", "json")]
      DEFAULT_SENSITIVE_HEADERS 0 (by decide)).2.1
    ⟨"authorization", by decide, by decide⟩,
   (C6_header_redaction
      [("Authorization", "secret"), ("content-type", "json")]
      DEFAULT_SENSITIVE_HEADERS 1 (by decide)).2.2
    (by decide)⟩

/-- C7 counterexample: the body `false` is falsy, so `truncateBody`
returns it unmodified even though its serialization `"false"` (length
5) exceeds a maximum length of 2 — the claim would require the
truncated string `"fa... [truncated]"` instead. -/
theorem C7_counterexample :
    Body.serialize (.bjson (.jbool false)) = "false" ∧
    ("false".length > 2) ∧
    truncateBody (.bjson (.jbool false)) 2 = .bjson (.jbool false) ∧
    truncateBody (.bjson (.jbool false)) 2 ≠
      .bstr ("fa" ++ "... [truncated]") := by
  refine ⟨rfl, by decide, rfl, ?_⟩
  intro h
  exact Body.noConfusion h

/-- C7 amended: falsy bodies (empty string, `null`, `false`, `0`) are
always returned unmodified without measurement; for every other body,
if the serialized length exceeds the maximum the result is the
serialized prefix of that length followed by the `"... [truncated]"`
marker, and otherwise the result is the original body itself. -/
theorem C7_truncate_body (body : Body) (maxLength : Nat) :
    (body.isFalsy = true → truncateBody body maxLength = body) ∧
    (body.isFalsy = false → body.serialize.length > maxLength →
      truncateBody body maxLength =
        .bstr (body.serialize.take maxLength ++ "... [truncated]")) ∧
    (body.isFalsy = false → body.serialize.length ≤ maxLength →
      truncateBody body maxLength = body) := by
  refine ⟨fun hf => ?_, fun hf hlong => ?_, fun hf hshort => ?_⟩
  · simp [truncateBody, hf]
  · simp [truncateBody, hf, hlong]
  · simp [truncateBody, hf]
    omega

/-- Witness for C7 at concrete bodies on both sides of the bound. -/
theorem C7_truncate_body_witness :
    truncateBody (.bstr "0123456789") 4 =
      .bstr ("0123" ++ "... [truncated]") ∧
    truncateBody (.bstr "0123456789") 100 = .bstr "0123456789" :=
  ⟨by
    have h := (C7_truncate_body (.bstr "0123456789") 4).2.1 rfl (by decide)
    simpa using h,
   (C7_truncate_body (.bstr "0123456789") 100).2.2 rfl (by decide)⟩

/-- `formatStackTrace` never yields the empty string. -/
theorem formatStackTrace_ne_empty (st : Option String) :
    ¬formatStackTrace st = "" := by
  cases st with
  | none => simp [formatStackTrace]
  | some s =>
    by_cases h : s = "" <;> simp [formatStackTrace, h]

/-- C9 counterexample: an uncaught `new Error("")` has extracted
message `""`, which contains none of the denylist patterns, yet the
installed handler records nothing (`shouldIgnoreError` treats the
falsy empty message as ignorable) — refuting "otherwise exactly one
Error event is recorded". -/
theorem C9_counterexample :
    extractErrorMessage (.errObj "" none) = "" ∧
    IGNORE_PATTERNS.all (fun pat => !(jsIncludes "" pat)) = true ∧
    shouldIgnoreError "" = true ∧
    (handleGlobalError
      { logs := [], maxLogs := 10, enabled := true, listeners := [] }
      7 "abc" (.errObj "" none) false).1.logs = [] := by
  refine ⟨rfl, by decide, rfl, rfl⟩

/-- C9 amended: on an enabled store with spare capacity, the installed
global handler drops the event exactly when `shouldIgnoreError` accepts
the extracted message (a denylist match or the empty message); in every
other case it appends exactly one Error event carrying that message,
prefixed with `"[FATAL] "` when the invocation is fatal, with the
formatted stack trace attached exactly when the raised value is a
native error object. -/
theorem C9_error_hook (s : QALogger) (now : Nat) (rand : String)
    (err : ErrVal) (isFatal : Bool)
    (hen : s.enabled = true) (hcap : s.logs.length < s.maxLogs) :
    (shouldIgnoreError (extractErrorMessage err) = true →
      (handleGlobalError s now rand err isFatal).1 = s ∧
      (handleGlobalError s now rand err isFatal).2.1 = []) ∧
    (shouldIgnoreError (extractErrorMessage err) = false →
      (handleGlobalError s now rand err isFatal).1.logs =
        s.logs ++
          [{ id := generateId now rand, timestamp := now, level := .error,
             message := if isFatal then "[FATAL] " ++ extractErrorMessage err
                        else extractErrorMessage err,
             data := some err,
             stackTrace :=
               match err with
               | .errObj _ st => some (formatStackTrace st)
               | _ => none }]) := by
  have hen' : ¬s.enabled = false := by simp [hen]
  have hlen : ¬(s.maxLogs < s.logs.length + 1) := by omega
  constructor
  · intro hig
    refine ⟨?_, ?_⟩ <;> simp [handleGlobalError, hig]
  · intro hig
    cases err with
    | errObj m st =>
      simp only [extractErrorMessage] at hig
      simp [handleGlobalError, hig, error, addLog, hen', hlen,
        errorStackFallback, formatStackTrace_ne_empty st, generateId,
        extractErrorMessage]
    | str t =>
      simp only [extractErrorMessage] at hig
      simp [handleGlobalError, hig, error, addLog, hen', hlen,
        errorStackFallback, errInstanceStack, generateId,
        extractErrorMessage]
    | obj m t =>
      simp only [extractErrorMessage] at hig
      simp [handleGlobalError, hig, error, addLog, hen', hlen,
        errorStackFallback, errInstanceStack, generateId,
        extractErrorMessage]
    | other t =>
      simp only [extractErrorMessage] at hig
      simp [handleGlobalError, hig, error, addLog, hen', hlen,
        errorStackFallback, errInstanceStack, generateId,
        extractErrorMessage]

/-- Witness for C9: an unrelated message is recorded as exactly one
Error event. -/
theorem C9_error_hook_witness :
    (handleGlobalError
      { logs := [], maxLogs := 10, enabled := true, listeners := [] }
      7 "abc" (.errObj "boom" (some "trace")) true).1.logs =
      [{ id := "7-abc", timestamp := 7, level := .error,
         message := "[FATAL] " ++ "boom",
         data := some (.errObj "boom" (some "trace")),
         stackTrace := some (formatStackTrace (some "trace")) }] :=
  (C9_error_hook
    { logs := [], maxLogs := 10, enabled := true, listeners := [] }
    7 "abc" (.errObj "boom" (some "trace")) true
    rfl (by decide)).2 (by decide)

/-- When no listener throws, every subscribed callback is invoked
exactly once, in registration order, and no exception escapes. -/
theorem notifyRun_no_throw (ls : List Listener)
    (h : ∀ l ∈ ls, l.throws = false) :
    notifyRun ls = (ls.map Listener.id, false) := by
  induction ls with
  | nil => simp [notifyRun]
  | cons l rest ih =>
    have hl : l.throws = false := h l (by simp)
    have hr : ∀ x ∈ rest, x.throws = false := fun x hx => h x (by simp [hx])
    simp [notifyRun, hl, ih hr]

/-- C10: with the enabled flag off (and well-behaved subscribers),
`clearLogs` still empties the log list and notifies every currently
subscribed callback exactly once, while the record operations
(info, warn, error, network) are no-ops that notify nobody. -/
theorem C10_clear_ignores_enabled (s : QALogger)
    (hen : s.enabled = false)
    (hnothrow : ∀ l ∈ s.listeners, l.throws = false) :
    ((clearLogs s).1.logs = [] ∧
     (clearLogs s).2.1 = s.listeners.map Listener.id) ∧
    (∀ now rand msg (d : Option ErrVal),
      info s now rand msg d = (s, [], false)) ∧
    (∀ now rand msg (d : Option ErrVal),
      warn s now rand msg d = (s, [], false)) ∧
    (∀ now rand msg (e : Option ErrVal) (st : Option String),
      error s now rand msg e st = (s, [], false)) ∧
    (∀ now rand (f : NetworkFields),
      network s now rand f = (s, [], false)) := by
  refine ⟨⟨rfl, ?_⟩, ?_, ?_, ?_, ?_⟩
  · simp [clearLogs, notifyRun_no_throw s.listeners hnothrow]
  · intro now rand msg d; simp [info, hen]
  · intro now rand msg d; simp [warn, hen]
  · intro now rand msg e st; simp [error, hen]
  · intro now rand f; simp [network, hen]

/-- Witness for C10 at a concrete disabled store with two
subscribers. -/
theorem C10_clear_ignores_enabled_witness :
    (clearLogs
      { logs := [{ id := "1-a", timestamp := 1, level := .info, message := "A" }],
        maxLogs := 10, enabled := false,
        listeners := [⟨0, false⟩, ⟨1, false⟩] }).2.1 = [0, 1] :=
  ((C10_clear_ignores_enabled
    { logs := [{ id := "1-a", timestamp := 1, level := .info, message := "A" }],
      maxLogs := 10, enabled := false,
      listeners := [⟨0, false⟩, ⟨1, false⟩] }
    rfl (by decide)).1).2
